import Mathlib

/-!
Verification of the InfoFlow content-filtering pipeline (`filters.py`).

The Python source is shallowly embedded: every pipeline stage becomes a pure
Lean function over a `ContentItem` record.  Numeric scores (Python floats that
only ever hold small exact fractions) are modelled as `ℚ`; timestamps are
modelled as integer epoch seconds, so `timedelta(days = n)` is `n * 86400`
seconds and `total_seconds() / 3600` is exact rational division.  Python
truthiness (`x or default` falling back on `None`, `0.0`, `""` and `[]`) is
modelled explicitly by the `orQ` / `orInt` / `orStr` / `orListStr` helpers.
String operations are re-implemented structurally over character lists so that
concrete runs reduce inside the kernel; on the ASCII inputs used by the
concrete runs they agree with Python `lower` / `split` / slicing semantics.
The optional sentence-transformers embedding model is an external capability
and is modelled as an optional abstract similarity oracle
`Option (String → String → ℚ)`; `none` is the unavailable / failing case, in
which the code takes the lexical fallback path.
Python `sorted(key = ..., reverse = True)` is a stable descending sort, which
is modelled by the structural stable insertion sort `sort_desc` (any two
stable sorts of the same key agree extensionally).
-/

namespace InfoFlow

/-! ### String helpers (Python semantics, structurally recursive) -/

/-- Python `str.lower()` (ASCII case folding, as `Char.toLower`). -/
def lowerStr (s : String) : String := String.mk (s.data.map Char.toLower)

/-- Python slicing `s[:n]` (by characters). -/
def takeStr (s : String) (n : Nat) : String := String.mk (s.data.take n)

/-- Substring containment over char lists: Python `pat in hay`.
The empty pattern is contained in every string, as in Python. -/
def chContains (hay needle : List Char) : Bool :=
  match hay with
  | [] => needle.isEmpty
  | _ :: t => needle.isPrefixOf hay || chContains t needle

/-- Python `pat in hay` for strings. -/
def containsSub (hay pat : String) : Bool := chContains hay.data pat.data

/-- Python `str.split()` with no argument: split on whitespace runs,
discarding empty pieces. -/
def splitWs : List Char → List (List Char)
  | [] => []
  | c :: t =>
    if c.isWhitespace then splitWs t
    else
      match splitWs t with
      | [] => [[c]]
      | w :: ws =>
        if t.head?.any (fun d => !d.isWhitespace) then (c :: w) :: ws
        else [c] :: w :: ws

/-- Python `str.strip()`. -/
def stripStr (s : String) : String :=
  String.mk (((s.data.dropWhile Char.isWhitespace).reverse.dropWhile
    Char.isWhitespace).reverse)

/-- Python `s.startswith(pre)`. -/
def startsWithStr (s pre : String) : Bool := pre.data.isPrefixOf s.data

/-- Python `str.isupper()`: at least one cased character, and every cased
character upper-case (cased approximated by `Char.isAlpha`). -/
def pyIsUpper (s : String) : Bool :=
  s.data.any Char.isAlpha && (s.data.filter Char.isAlpha).all Char.isUpper

/-- `" ".join(l)`. -/
def joinSpace : List String → String
  | [] => ""
  | [s] => s
  | s :: rest => s ++ " " ++ joinSpace rest

/-! ### Python truthiness fallbacks (`x or default`) -/

/-- Python `x or d` for an optional float: `None` and `0.0` are falsy. -/
def orQ (v : Option ℚ) (d : ℚ) : ℚ :=
  match v with
  | none => d
  | some x => if x = 0 then d else x

/-- Python `x or d` for an optional int: `None` and `0` are falsy. -/
def orInt (v : Option Int) (d : Int) : Int :=
  match v with
  | none => d
  | some x => if x = 0 then d else x

/-- Python `x or d` for an optional string: `None` and `""` are falsy. -/
def orStr (v : Option String) (d : String) : String :=
  match v with
  | none => d
  | some s => if s.data.isEmpty then d else s

/-- Python `not x` for an optional string. -/
def optStrFalsy (v : Option String) : Bool :=
  match v with
  | none => true
  | some s => s.data.isEmpty

/-- Python `x or d` for a list: `[]` is falsy. -/
def orListStr (v d : List String) : List String :=
  match v with
  | [] => d
  | _ => v

/-- Python truthiness of an optional string (`if item.author:`). -/
def optStrTruthy (v : Option String) : Bool :=
  match v with
  | none => false
  | some s => !s.data.isEmpty

/-! ### Data model (`models.py` as consumed by `filters.py`) -/

/-- A content item, with the fields the filtering code reads and the mutable
derived score annotations it writes. -/
structure ContentItem where
  title : String := ""
  content : String := ""
  source : Option String := none
  url : Option String := none
  tags : List String := []
  author : Option String := none
  published_date : Option Int := none
  relevance_score : Option ℚ := none
  quality_score : Option ℚ := none
  urgency_score : Option ℚ := none
deriving Repr, DecidableEq

/-- Request-scoped filtering criteria; unset / falsy fields fall back to the
process configuration. -/
structure FilterCriteria where
  relevance_threshold : Option ℚ := none
  quality_threshold : Option ℚ := none
  max_age_days : Option Int := none
  preferred_sources : List String := []
  blocked_sources : List String := []
  keywords : List String := []
  query : Option String := none
deriving Repr, DecidableEq

/-- `FilterConfig` from `config.py`, with its pydantic defaults. -/
structure FilterConfig where
  relevance_threshold : ℚ := 7/10
  quality_threshold : ℚ := 6/10
  max_age_days : Int := 30
  preferred_sources : List String := []
  blocked_sources : List String := []
  keywords : List String := []
deriving Repr, DecidableEq

/-- `UserPreferences` from `config.py` (only the field the filter reads). -/
structure UserPreferences where
  topics_of_interest : List String := []
deriving Repr, DecidableEq

/-- Result envelope returned by `filter_items`. -/
structure FilteredResult where
  filtered_items : List ContentItem
  total_processed : Nat
  total_filtered : Nat
deriving Repr, DecidableEq

/-! ### Stage 1: `_filter_by_age` -/

/-- `item.published_date >= cutoff_date` with
`cutoff_date = now - timedelta(days = max_age)`; dateless items pass. -/
def age_pass (now maxAge : Int) (item : ContentItem) : Bool :=
  match item.published_date with
  | some d => decide (now - maxAge * 86400 ≤ d)
  | none => true

def filter_by_age (now maxAge : Int) (items : List ContentItem) :
    List ContentItem :=
  items.filter (age_pass now maxAge)

/-! ### Stage 2: `_filter_by_source` -/

/-- `item.source in blocked` (a `None` source is never in the set). -/
def source_blocked (blocked : List String) (item : ContentItem) : Bool :=
  match item.source with
  | some s => blocked.contains s
  | none => false

/-- `item.source not in preferred` (a `None` source is not in the set). -/
def source_not_preferred (preferred : List String) (item : ContentItem) :
    Bool :=
  match item.source with
  | some s => !preferred.contains s
  | none => true

/-- `if preferred and item.source not in preferred:` dampen the working
relevance score by the fixed 0.7 multiplier. -/
def source_dampen (preferred : List String) (item : ContentItem) :
    ContentItem :=
  if !preferred.isEmpty && source_not_preferred preferred item then
    { item with relevance_score := some (orQ item.relevance_score (1/2) * (7/10)) }
  else item

def filter_by_source (blocked preferred : List String)
    (items : List ContentItem) : List ContentItem :=
  (items.filter (fun i => !source_blocked blocked i)).map
    (source_dampen preferred)

/-! ### Stage 3: `_filter_by_keywords` -/

/-- `sum(1 for kw in keywords_lower if kw in text)` where
`text = (title + " " + content).lower()`. -/
def keyword_match_count (kws : List String) (item : ContentItem) : Nat :=
  (kws.filter (fun kw =>
    containsSub (lowerStr (item.title ++ " " ++ item.content))
      (lowerStr kw))).length

/-- `item.relevance_score = (item.relevance_score or 0.5) * (1.0 + match_count * 0.1)`. -/
def keyword_boost (kws : List String) (item : ContentItem) : ContentItem :=
  let boosted := orQ item.relevance_score (1/2) *
    (1 + (keyword_match_count kws item : ℚ) * (1/10))
  { item with relevance_score := some boosted }

/-- Keyword stage; `return filtered if filtered else items`. -/
def filter_by_keywords (kws : List String) (items : List ContentItem) :
    List ContentItem :=
  if kws.isEmpty then items
  else
    let filtered :=
      (items.filter (fun i => 0 < keyword_match_count kws i)).map
        (keyword_boost kws)
    if filtered.isEmpty then items else filtered

/-! ### Stage 4: `_calculate_relevance` / `_fallback_relevance` -/

/-- Lower-cased whitespace token set of a string (Python
`set(s.lower().split())`). -/
def tokenSet (s : String) : Finset (List Char) :=
  (splitWs (s.data.map Char.toLower)).toFinset

/-- Jaccard similarity `|intersection| / |union|`, `0.0` on empty union. -/
def jaccard (ref text : String) : ℚ :=
  let rw := tokenSet ref
  let tw := tokenSet text
  if 0 < ((rw ∪ tw).card : Nat) then
    ((rw ∩ tw).card : ℚ) / (((rw ∪ tw).card : Nat) : ℚ)
  else 0

/-- `_fallback_relevance`: overwrite every item's relevance with the Jaccard
similarity of the reference text and `title + " " + content`. -/
def fallback_relevance (reference_text : String)
    (items : List ContentItem) : List ContentItem :=
  items.map (fun item =>
    let s := jaccard reference_text (item.title ++ " " ++ item.content)
    { item with relevance_score := some s })

/-- The text the embedding path encodes per item:
`f"{item.title} {item.content[:500]}"`. -/
def embed_text (item : ContentItem) : String :=
  item.title ++ " " ++ takeStr item.content 500

/-- `" ".join([criteria.query or "", " ".join(topics)]).strip()`. -/
def reference_text_of (query : Option String) (topics : List String) :
    String :=
  stripStr (orStr query "" ++ " " ++ joinSpace topics)

/-- The per-item body of the no-query/no-interests branch: only items whose
relevance is still `None` get the neutral 0.5. -/
def neutral_fill (item : ContentItem) : ContentItem :=
  match item.relevance_score with
  | none => { item with relevance_score := some (1/2) }
  | some _ => item

/-- `_calculate_relevance`.  `model` is the optional embedding capability,
abstracted as a similarity oracle on the two texts the code encodes
(`none` covers both "unavailable" and "the embedding call failed", in which
cases the code falls back to `_fallback_relevance`). -/
def calculate_relevance (model : Option (String → String → ℚ))
    (query : Option String) (topics : List String)
    (items : List ContentItem) : List ContentItem :=
  if optStrFalsy query && topics.isEmpty then
    items.map neutral_fill
  else
    let reference_text := reference_text_of query topics
    match model with
    | some sim =>
        items.map (fun item =>
          let s := sim reference_text (embed_text item)
          { item with relevance_score := some s })
    | none => fallback_relevance reference_text items

/-! ### Stage 5: `_calculate_quality` -/

/-- The additive quality heuristic, capped at 1. -/
def calculate_quality_score (item : ContentItem) : ℚ :=
  let len := item.content.data.length
  let q : ℚ := 1/2
  let q := q + (if 200 ≤ len ∧ len ≤ 5000 then 2/10
                else if 5000 < len then 1/10 else 0)
  let q := q + (if (match item.url with
                    | some u => !u.data.isEmpty && startsWithStr u "http"
                    | none => false) then 1/10 else 0)
  let q := q + (if optStrTruthy item.author then 1/10 else 0)
  let q := q + (if !item.tags.isEmpty then 1/10 else 0)
  let q := q + (if !item.title.data.isEmpty then
                  (if !pyIsUpper item.title then 5/100 else 0) +
                  (if 10 ≤ item.title.data.length ∧
                      item.title.data.length ≤ 200 then 5/100 else 0)
                else 0)
  let q := q + (if item.content.data.contains '\n' then 1/10 else 0)
  min 1 q

def calculate_quality (items : List ContentItem) : List ContentItem :=
  items.map (fun item =>
    { item with quality_score := some (calculate_quality_score item) })

/-! ### Stage 6: `_filter_by_scores` -/

/-- `relevance >= relevance_threshold and quality >= quality_threshold`
with `relevance = item.relevance_score or 0.0` (falsy fallback). -/
def score_pass (rt qt : ℚ) (item : ContentItem) : Bool :=
  decide (rt ≤ orQ item.relevance_score 0) &&
  decide (qt ≤ orQ item.quality_score 0)

def filter_by_scores (rt qt : ℚ) (items : List ContentItem) :
    List ContentItem :=
  items.filter (score_pass rt qt)

/-! ### Stage 7: sort, and the assembled pipeline `filter_items` -/

/-- Sort key `(x.relevance_score or 0) * (x.quality_score or 0)`. -/
def sort_key (item : ContentItem) : ℚ :=
  orQ item.relevance_score 0 * orQ item.quality_score 0

/-- Stable descending insertion: `x` goes before the first element whose key
is `≤` its own (so earlier elements win ties, as Python's stable sort does). -/
def insert_desc (key : ContentItem → ℚ) (x : ContentItem) :
    List ContentItem → List ContentItem
  | [] => [x]
  | y :: ys =>
    if key y ≤ key x then x :: y :: ys else y :: insert_desc key x ys

/-- Stable descending sort by `key` (extensionally Python
`sorted(key = key, reverse = True)`). -/
def sort_desc (key : ContentItem → ℚ) : List ContentItem → List ContentItem
  | [] => []
  | x :: xs => insert_desc key x (sort_desc key xs)

/-- Stages 1–4 of the pipeline (through relevance scoring), with the
criteria-over-config fallback resolution performed as in `filter_items`. -/
def stages_through_relevance (now : Int)
    (model : Option (String → String → ℚ)) (cfg : FilterConfig)
    (prefs : UserPreferences) (criteria : FilterCriteria)
    (items : List ContentItem) : List ContentItem :=
  calculate_relevance model criteria.query prefs.topics_of_interest
    (filter_by_keywords (orListStr criteria.keywords cfg.keywords)
      (filter_by_source (orListStr criteria.blocked_sources cfg.blocked_sources)
        (orListStr criteria.preferred_sources cfg.preferred_sources)
        (filter_by_age now (orInt criteria.max_age_days cfg.max_age_days)
          items)))

/-- `ContentFilter.filter_items`: the full pipeline. -/
def filter_items (now : Int) (model : Option (String → String → ℚ))
    (cfg : FilterConfig) (prefs : UserPreferences)
    (items : List ContentItem) (criteria : FilterCriteria) :
    FilteredResult :=
  if items.isEmpty then ⟨[], 0, 0⟩
  else
    let scored :=
      calculate_quality (stages_through_relevance now model cfg prefs criteria items)
    let final :=
      filter_by_scores (orQ criteria.relevance_threshold cfg.relevance_threshold)
        (orQ criteria.quality_threshold cfg.quality_threshold) scored
    ⟨sort_desc sort_key final, items.length, final.length⟩

/-! ### `rank_by_urgency` -/

def urgency_keywords : List String :=
  ["urgent", "breaking", "alert", "critical", "important", "deadline"]

/-- The recency block of `calculate_urgency`: when `published_date` is absent
the `if` body is skipped entirely, so the contribution is 0. -/
def recency_factor (now : Int) (pd : Option Int) : ℚ :=
  match pd with
  | none => 0
  | some d =>
    let age_hours : ℚ := ((now - d : Int) : ℚ) / 3600
    if age_hours < 1 then 4/10
    else if age_hours < 24 then 3/10
    else if age_hours < 168 then 2/10
    else 1/10

/-- `min(0.2, keyword_count * 0.05)` over the fixed urgency keyword list. -/
def urgency_keyword_factor (item : ContentItem) : ℚ :=
  min (2/10)
    (((urgency_keywords.filter (fun kw =>
        containsSub (lowerStr (item.title ++ " " ++ item.content))
          kw)).length : ℚ) * (5/100))

/-- The inner `calculate_urgency` closure. -/
def calculate_urgency (now : Int) (item : ContentItem) : ℚ :=
  recency_factor now item.published_date +
    orQ item.relevance_score (1/2) * (4/10) +
    urgency_keyword_factor item

/-- `ContentFilter.rank_by_urgency`: annotate every item with its urgency and
sort descending by it. -/
def rank_by_urgency (now : Int) (items : List ContentItem) :
    List ContentItem :=
  sort_desc (fun i => (i.urgency_score).getD 0)
    (items.map (fun i =>
      { i with urgency_score := some (calculate_urgency now i) }))

/-! ### `DuplicateDetector.remove_duplicates` -/

/-- `hash(item.title.lower())`, modelled injectively by the lower-cased
character list itself. -/
def title_key (item : ContentItem) : List Char :=
  item.title.data.map Char.toLower

/-- `item.url in seen_hashes` (a `None` url is never in the set, which only
ever receives truthy urls and title keys). -/
def url_seen (seenUrls : List String) (u : Option String) : Bool :=
  match u with
  | some s => seenUrls.contains s
  | none => false

/-- `if self.model and unique_items:` followed by the semantic duplicate
check, abstracted over the optional capability. -/
def sem_check (sem : Option (ContentItem → List ContentItem → Bool))
    (item : ContentItem) (unique : List ContentItem) : Bool :=
  match sem with
  | some f => !unique.isEmpty && f item unique
  | none => false

/-- The accumulation loop of `remove_duplicates`.  `sem` abstracts
`_check_semantic_duplicate` (the windowed cosine check, availability and
fail-open behaviour included): `none` is the model-unavailable case in which
the semantic branch is skipped. -/
def remove_duplicates_loop
    (sem : Option (ContentItem → List ContentItem → Bool)) :
    List String → List (List Char) → List ContentItem →
      List ContentItem → List ContentItem
  | _, _, unique, [] => unique
  | seenUrls, seenTitles, unique, item :: rest =>
    if url_seen seenUrls item.url then
      remove_duplicates_loop sem seenUrls seenTitles unique rest
    else if seenTitles.contains (title_key item) then
      remove_duplicates_loop sem seenUrls seenTitles unique rest
    else if sem_check sem item unique then
      remove_duplicates_loop sem seenUrls seenTitles unique rest
    else
      remove_duplicates_loop sem
        (match item.url with
         | some s => if s.data.isEmpty then seenUrls else s :: seenUrls
         | none => seenUrls)
        (title_key item :: seenTitles) (unique ++ [item]) rest

/-- `DuplicateDetector.remove_duplicates`. -/
def remove_duplicates
    (sem : Option (ContentItem → List ContentItem → Bool))
    (items : List ContentItem) : List ContentItem :=
  if items.length ≤ 1 then items
  else remove_duplicates_loop sem [] [] [] items

/-! ### Bookkeeping for the idempotence analysis -/

/-- The immutable payload of an item: every field except the three derived
scores.  All pipeline mutations preserve it. -/
def payload (i : ContentItem) :
    String × String × Option String × Option String × List String ×
      Option String × Option Int :=
  (i.title, i.content, i.source, i.url, i.tags, i.author, i.published_date)

/-- The value the relevance stage assigns when it scores against a reference
text: embedding similarity when the capability is present, full-text Jaccard
otherwise. -/
def rel_value (model : Option (String → String → ℚ)) (ref : String)
    (i : ContentItem) : ℚ :=
  match model with
  | some sim => sim ref (embed_text i)
  | none => jaccard ref (i.title ++ " " ++ i.content)

/-! ### Concrete items and criteria used by the concrete runs -/

def itemX : ContentItem := { title := "x", content := "" }

def itemBlank : ContentItem := {}

def itemY : ContentItem := { source := some "y" }

def itemZebra : ContentItem :=
  { title := "t", content := String.mk (List.replicate 500 'a') ++ " zebra" }

def itemOld30 : ContentItem := { published_date := some (0 - 30 * 86400) }

def itemOld31 : ContentItem := { published_date := some (0 - 31 * 86400) }

def itemA : ContentItem := { title := "a" }

def itemB : ContentItem := { title := "b" }

def critKeywords11 : FilterCriteria :=
  { keywords := List.replicate 11 "x",
    relevance_threshold := some (3/10), quality_threshold := some (1/2) }

def critPreferred : FilterCriteria :=
  { preferred_sources := ["x"],
    relevance_threshold := some (3/10), quality_threshold := some (1/2) }

def critLow : FilterCriteria :=
  { relevance_threshold := some 0, quality_threshold := some (1/2) }

def critMid : FilterCriteria :=
  { relevance_threshold := some (1/2), quality_threshold := some (1/2) }

def critQZero : FilterCriteria :=
  { relevance_threshold := some (1/2), quality_threshold := some 0 }

def critQHalf : FilterCriteria :=
  { relevance_threshold := some (1/2), quality_threshold := some (1/2) }

/-- A criteria record with only the two thresholds replaced. -/
def with_thresholds (c : FilterCriteria) (r q : ℚ) : FilterCriteria :=
  { c with relevance_threshold := some r, quality_threshold := some q }

/-! ### Helper lemmas -/

theorem mem_insert_desc {key : ContentItem → ℚ} {x y : ContentItem}
    {l : List ContentItem} : y ∈ insert_desc key x l ↔ y = x ∨ y ∈ l := by
  induction l with
  | nil => simp [insert_desc]
  | cons a t ih =>
    unfold insert_desc
    split
    · simp [or_comm, or_assoc, or_left_comm]
    · simp [ih]
      tauto

theorem mem_sort_desc {key : ContentItem → ℚ} {l : List ContentItem}
    {x : ContentItem} : x ∈ sort_desc key l ↔ x ∈ l := by
  induction l with
  | nil => simp [sort_desc]
  | cons a t ih => simp [sort_desc, mem_insert_desc, ih]

theorem length_insert_desc (key : ContentItem → ℚ) (x : ContentItem)
    (l : List ContentItem) :
    (insert_desc key x l).length = l.length + 1 := by
  induction l with
  | nil => rfl
  | cons a t ih =>
    unfold insert_desc
    split
    · rfl
    · simp [ih]

theorem length_sort_desc (key : ContentItem → ℚ) (l : List ContentItem) :
    (sort_desc key l).length = l.length := by
  induction l with
  | nil => rfl
  | cons a t ih => simp [sort_desc, length_insert_desc, ih]

theorem calculate_quality_score_bounds (item : ContentItem) :
    1/2 ≤ calculate_quality_score item ∧ calculate_quality_score item ≤ 1 := by
  unfold calculate_quality_score
  refine ⟨le_min (by norm_num) ?_, min_le_left _ _⟩
  split_ifs <;> norm_num

theorem jaccard_nonneg (ref text : String) : 0 ≤ jaccard ref text := by
  simp only [jaccard]
  split_ifs with h
  · positivity
  · exact le_refl 0

theorem jaccard_le_one (ref text : String) : jaccard ref text ≤ 1 := by
  simp only [jaccard]
  split_ifs with h
  · rw [div_le_one (by exact_mod_cast h)]
    exact_mod_cast Finset.card_le_card
      (Finset.Subset.trans Finset.inter_subset_left Finset.subset_union_left)
  · norm_num

/-! ### Claims -/

/-- C1: the claim that every score set by a stage lies in [0,1] (with the
embedding path clamping its cosine) is false: with eleven matching keywords
the keyword stage sets `relevance_score = 0.5 * (1 + 11 * 0.1) = 1.05 > 1`,
and the value survives to the pipeline output. -/
theorem c1_counterexample :
    (filter_items 0 none {} {} [itemX] critKeywords11).filtered_items.map
        (fun i => i.relevance_score) = [some (21/20)] ∧
    ¬ ((21:ℚ)/20 ≤ 1) := by
  constructor
  · norm_num +decide [filter_items, stages_through_relevance, filter_by_age,
      filter_by_source, filter_by_keywords, filter_by_scores, calculate_quality,
      calculate_relevance, neutral_fill, keyword_boost, keyword_match_count,
      containsSub, chContains, lowerStr, orListStr, orQ, orInt, optStrFalsy,
      age_pass, source_blocked, source_dampen, calculate_quality_score,
      score_pass, sort_desc, insert_desc, sort_key, itemX, critKeywords11,
      pyIsUpper, optStrTruthy, startsWithStr, inf_eq_min, min_def]
  · norm_num

/-- C1 (amended): quality scores computed by the quality stage always lie in
[0.5, 1], and relevance scores computed by the lexical fallback (Jaccard) lie
in [0, 1]; the keyword-boost and unclamped-embedding paths are the exceptions
exhibited by the counterexample. -/
theorem c1_amended (item : ContentItem) (ref text : String) :
    1/2 ≤ calculate_quality_score item ∧ calculate_quality_score item ≤ 1 ∧
    0 ≤ jaccard ref text ∧ jaccard ref text ≤ 1 :=
  ⟨(calculate_quality_score_bounds item).1,
   (calculate_quality_score_bounds item).2,
   jaccard_nonneg ref text, jaccard_le_one ref text⟩

/-- C3: threshold monotonicity fails across zero because a threshold of `0.0`
is Python-falsy and silently replaced by the config default (0.7): raising the
criteria relevance threshold from 0 to 0.5 raises the retained count from 0
to 1. -/
theorem c3_counterexample :
    critLow.relevance_threshold = some 0 ∧
    critMid.relevance_threshold = some (1/2) ∧ ((0:ℚ) < 1/2) ∧
    (filter_items 0 none {} {} [itemBlank] critLow).total_filtered = 0 ∧
    (filter_items 0 none {} {} [itemBlank] critMid).total_filtered = 1 := by
  refine ⟨rfl, rfl, by norm_num, ?_, ?_⟩ <;>
    norm_num +decide [filter_items, stages_through_relevance, filter_by_age,
      filter_by_source, filter_by_keywords, filter_by_scores, calculate_quality,
      calculate_relevance, neutral_fill, orListStr, orQ, orInt, optStrFalsy,
      age_pass, source_blocked, source_dampen, calculate_quality_score,
      score_pass, sort_desc, insert_desc, sort_key, itemBlank, critLow,
      critMid, pyIsUpper, optStrTruthy, startsWithStr, inf_eq_min, min_def]

/-- C3 (amended): for positive thresholds (which the falsy fallback leaves
alone), raising the relevance or quality threshold never increases the
retained count, all other criteria and inputs fixed. -/
theorem c3_amended (now : Int) (model : Option (String → String → ℚ))
    (cfg : FilterConfig) (prefs : UserPreferences) (items : List ContentItem)
    (c : FilterCriteria) (r1 r2 q1 q2 : ℚ)
    (hr1 : 0 < r1) (hr : r1 ≤ r2) (hq1 : 0 < q1) (hq : q1 ≤ q2) :
    (filter_items now model cfg prefs items
        (with_thresholds c r2 q2)).total_filtered ≤
      (filter_items now model cfg prefs items
        (with_thresholds c r1 q1)).total_filtered := by
  unfold with_thresholds
  unfold filter_items
  by_cases he : items.isEmpty
  · simp [he]
  · simp only [he, Bool.false_eq_true, if_false]
    have hres2 : orQ (some r2) cfg.relevance_threshold = r2 := by
      simp [orQ, (lt_of_lt_of_le hr1 hr).ne']
    have hres1 : orQ (some r1) cfg.relevance_threshold = r1 := by
      simp [orQ, hr1.ne']
    have hqes2 : orQ (some q2) cfg.quality_threshold = q2 := by
      simp [orQ, (lt_of_lt_of_le hq1 hq).ne']
    have hqes1 : orQ (some q1) cfg.quality_threshold = q1 := by
      simp [orQ, hq1.ne']
    simp only [hres1, hres2, hqes1, hqes2, filter_by_scores]
    exact (List.monotone_filter_right _ (fun a ha => by
      simp only [score_pass, Bool.and_eq_true, decide_eq_true_eq] at ha ⊢
      exact ⟨le_trans hr ha.1, le_trans hq ha.2⟩)).length_le

/-- C3 witness: the amended monotonicity at a concrete instance. -/
theorem c3_witness :
    (filter_items 0 none {} {} [] (with_thresholds {} (1/2) (1/2))).total_filtered ≤
      (filter_items 0 none {} {} [] (with_thresholds {} (1/2) (1/2))).total_filtered :=
  c3_amended 0 none {} {} [] {} (1/2) (1/2) (1/2) (1/2)
    (by norm_num) (by norm_num) (by norm_num) (by norm_num)

/-- C10: quality scores do lie in [0.5, 1], but a `quality_threshold` of `0.0`
(which is ≤ 0.5) is Python-falsy and resolves to the config default 0.6, so it
does exclude an item of quality 0.5 that a threshold of 0.5 retains. -/
theorem c10_counterexample :
    critQZero.quality_threshold = some 0 ∧ ((0:ℚ) ≤ 1/2) ∧
    (filter_items 0 none {} {} [itemBlank] critQHalf).total_filtered = 1 ∧
    (filter_items 0 none {} {} [itemBlank] critQZero).total_filtered = 0 := by
  refine ⟨rfl, by norm_num, ?_, ?_⟩ <;>
    norm_num +decide [filter_items, stages_through_relevance, filter_by_age,
      filter_by_source, filter_by_keywords, filter_by_scores, calculate_quality,
      calculate_relevance, neutral_fill, orListStr, orQ, orInt, optStrFalsy,
      age_pass, source_blocked, source_dampen, calculate_quality_score,
      score_pass, sort_desc, insert_desc, sort_key, itemBlank, critQZero,
      critQHalf, pyIsUpper, optStrTruthy, startsWithStr, inf_eq_min, min_def]

/-- C10 (amended): every quality score set by the quality stage lies in
[0.5, 1], so a resolved quality threshold `qt ≤ 0.5` excludes nothing at the
gate — the gate then filters on relevance alone; only the falsy resolution of
a criteria value of exactly 0 (to the config default) escapes this. -/
theorem c10_amended (rt qt : ℚ) (items : List ContentItem) (h : qt ≤ 1/2) :
    filter_by_scores rt qt (calculate_quality items) =
      (calculate_quality items).filter
        (fun i => decide (rt ≤ orQ i.relevance_score 0)) := by
  unfold filter_by_scores
  refine List.filter_congr (fun x hx => ?_)
  have hq : x.quality_score = some (calculate_quality_score x) := by
    obtain ⟨y, _, rfl⟩ := List.mem_map.mp hx
    rfl
  have hb := calculate_quality_score_bounds x
  have hqpos : calculate_quality_score x ≠ 0 := by
    intro h0
    rw [h0] at hb
    norm_num at hb
  simp only [score_pass, hq, orQ, hqpos, if_false]
  rw [decide_eq_true (le_trans h hb.1), Bool.and_true]

/-- C10 witness: the amended gate equality at a concrete instance. -/
theorem c10_witness :
    filter_by_scores 0 (1/2) (calculate_quality [itemBlank]) =
      (calculate_quality [itemBlank]).filter
        (fun i => decide ((0:ℚ) ≤ orQ i.relevance_score 0)) :=
  c10_amended 0 (1/2) [itemBlank] (by norm_num)

/-- C4: an item with no `published_date` gets no recency contribution at all
(the `if published_date:` body is skipped), not the claimed 0.1: a dateless,
keyword-free item scores `0 + 0.5 * 0.4 + 0 = 0.2`, and the recency component
is 0, not 1/10. -/
theorem c4_counterexample :
    (rank_by_urgency 0 [itemBlank]).map (fun i => i.urgency_score) =
        [some (1/5)] ∧
    recency_factor 0 none = 0 ∧ ((0:ℚ) ≠ 1/10) := by
  refine ⟨?_, rfl, by norm_num⟩
  norm_num +decide [rank_by_urgency, calculate_urgency, recency_factor,
    urgency_keyword_factor, urgency_keywords, containsSub, chContains,
    lowerStr, orQ, itemBlank, sort_desc, insert_desc, inf_eq_min, min_def]

/-- C4 (amended): `rank_by_urgency` annotates every item with
`calculate_urgency`, whose recency component is 0.4 below one hour
(3600 s), 0.3 below 24 h (86400 s), 0.2 below 168 h (604800 s), 0.1 beyond —
but 0 (not 0.1) when `published_date` is unknown. -/
theorem c4_amended (now d : Int) :
    (now - d < 3600 → recency_factor now (some d) = 4/10) ∧
    (3600 ≤ now - d → now - d < 86400 → recency_factor now (some d) = 3/10) ∧
    (86400 ≤ now - d → now - d < 604800 → recency_factor now (some d) = 2/10) ∧
    (604800 ≤ now - d → recency_factor now (some d) = 1/10) ∧
    recency_factor now none = 0 ∧
    (∀ items : List ContentItem, ∀ x ∈ rank_by_urgency now items,
      ∃ y ∈ items, x = { y with urgency_score := some (calculate_urgency now y) }) := by
  have e1 : (((now - d : Int) : ℚ) / 3600 < 1) ↔ (now - d < 3600) := by
    rw [div_lt_one (by norm_num : (0:ℚ) < 3600)]
    rw [show (3600:ℚ) = ((3600:Int):ℚ) by norm_num]
    exact Int.cast_lt
  have e2 : (((now - d : Int) : ℚ) / 3600 < 24) ↔ (now - d < 86400) := by
    rw [div_lt_iff (by norm_num : (0:ℚ) < 3600)]
    rw [show (24:ℚ) * 3600 = ((86400:Int):ℚ) by norm_num]
    exact Int.cast_lt
  have e3 : (((now - d : Int) : ℚ) / 3600 < 168) ↔ (now - d < 604800) := by
    rw [div_lt_iff (by norm_num : (0:ℚ) < 3600)]
    rw [show (168:ℚ) * 3600 = ((604800:Int):ℚ) by norm_num]
    exact Int.cast_lt
  refine ⟨?_, ?_, ?_, ?_, rfl, ?_⟩
  · intro h
    simp only [recency_factor]
    rw [if_pos (e1.mpr h)]
  · intro h1 h2
    simp only [recency_factor]
    rw [if_neg (fun hA => absurd (e1.mp hA) (not_lt.mpr h1)),
      if_pos (e2.mpr h2)]
  · intro h1 h2
    simp only [recency_factor]
    rw [if_neg (fun hA => absurd (e1.mp hA) (by omega)),
      if_neg (fun hA => absurd (e2.mp hA) (by omega)),
      if_pos (e3.mpr h2)]
  · intro h1
    simp only [recency_factor]
    rw [if_neg (fun hA => absurd (e1.mp hA) (by omega)),
      if_neg (fun hA => absurd (e2.mp hA) (by omega)),
      if_neg (fun hA => absurd (e3.mp hA) (by omega))]
  · intro items x hx
    simp only [rank_by_urgency] at hx
    rw [mem_sort_desc] at hx
    obtain ⟨y, hy, rfl⟩ := List.mem_map.mp hx
    exact ⟨y, hy, rfl⟩

/-- C4 witness: the hour boundary — exactly one hour old gives 0.3. -/
theorem c4_witness : recency_factor 3600 (some 0) = 3/10 :=
  (c4_amended 3600 0).2.1 (by norm_num) (by norm_num)

/-! ### Stage-identity helper lemmas -/

theorem filter_by_keywords_nil (l : List ContentItem) :
    filter_by_keywords [] l = l := rfl

theorem source_dampen_nil (i : ContentItem) : source_dampen [] i = i := by
  simp [source_dampen]

theorem filter_by_source_nil_pref (b : List String) (l : List ContentItem) :
    filter_by_source b [] l = l.filter (fun i => !source_blocked b i) := by
  unfold filter_by_source
  rw [List.map_congr_left (fun y _ => source_dampen_nil y), List.map_id']

/-- C6: the keyword filter never empties a non-empty input, and when no item
matches any keyword it returns the input list itself, unmodified. -/
theorem c6_theorem (kws : List String) (items : List ContentItem)
    (hne : items ≠ []) :
    filter_by_keywords kws items ≠ [] ∧
    ((∀ i ∈ items, keyword_match_count kws i = 0) →
      filter_by_keywords kws items = items) := by
  unfold filter_by_keywords
  by_cases hk : kws.isEmpty
  · simp only [hk, if_true]
    exact ⟨hne, by intros; trivial⟩
  · simp only [hk, Bool.false_eq_true, if_false]
    by_cases hf : ((items.filter
        (fun i => decide (0 < keyword_match_count kws i))).map
        (keyword_boost kws)).isEmpty
    · simp only [hf, if_true]
      exact ⟨hne, by intros; trivial⟩
    · simp only [hf, Bool.false_eq_true, if_false]
      constructor
      · intro h
        rw [h] at hf
        simp at hf
      · intro hall
        exfalso
        have hzero : items.filter
            (fun i => decide (0 < keyword_match_count kws i)) = [] :=
          List.filter_eq_nil_iff.mpr (fun a ha => by simp [hall a ha])
        rw [hzero] at hf
        simp at hf

/-- C6 witness: a keyword matching nothing leaves the list intact. -/
theorem c6_witness :
    filter_by_keywords ["q"] [itemX] ≠ [] ∧
    filter_by_keywords ["q"] [itemX] = [itemX] := by
  have h := c6_theorem ["q"] [itemX] (by decide)
  exact ⟨h.1, h.2 (by decide)⟩

/-- C8: the age filter retains exactly the items whose `published_date` is
unset or at least `now - max_age_days` (in seconds); the boundary item dated
exactly `max_age_days` ago is retained, one day older is dropped. -/
theorem c8_theorem (now maxAge : Int) (items : List ContentItem)
    (i : ContentItem) :
    (i ∈ filter_by_age now maxAge items ↔
      i ∈ items ∧ (i.published_date = none ∨
        ∃ d, i.published_date = some d ∧ now - maxAge * 86400 ≤ d)) ∧
    (i ∈ items → i.published_date = some (now - maxAge * 86400) →
      i ∈ filter_by_age now maxAge items) ∧
    (i.published_date = some (now - (maxAge + 1) * 86400) →
      i ∉ filter_by_age now maxAge items) := by
  have hmem : i ∈ filter_by_age now maxAge items ↔
      i ∈ items ∧ age_pass now maxAge i = true := List.mem_filter
  refine ⟨?_, ?_, ?_⟩
  · rw [hmem]
    refine and_congr_right (fun _ => ?_)
    unfold age_pass
    cases hpd : i.published_date with
    | none => simp
    | some d => simp
  · intro hi hpd
    rw [hmem]
    refine ⟨hi, ?_⟩
    unfold age_pass
    rw [hpd]
    simp
  · intro hpd hin
    have h := (hmem.mp hin).2
    unfold age_pass at h
    rw [hpd] at h
    simp only [decide_eq_true_eq] at h
    omega

/-- C8 witness: the two boundary cases at `now = 0`, `max_age_days = 30`. -/
theorem c8_witness :
    itemOld30 ∈ filter_by_age 0 30 [itemOld30] ∧
    itemOld31 ∉ filter_by_age 0 30 [itemOld31] :=
  ⟨(c8_theorem 0 30 [itemOld30] itemOld30).2.1 (by decide) (by decide),
   (c8_theorem 0 30 [itemOld31] itemOld31).2.2 (by decide)⟩

/-- C5: with an empty query and no topics of interest, an item dampened by
the source stage (preferred list set, item from another source) reaches the
end of the relevance stage with score 0.35, not the claimed neutral 0.5 —
the neutral fill only touches items whose score is still unset. -/
theorem c5_counterexample :
    critPreferred.query = none ∧
    ({} : UserPreferences).topics_of_interest = [] ∧
    (stages_through_relevance 0 none {} {} critPreferred [itemY]).map
        (fun i => i.relevance_score) = [some (7/20)] ∧
    ((7:ℚ)/20 ≠ 1/2) := by
  refine ⟨rfl, rfl, ?_, by norm_num⟩
  norm_num +decide [stages_through_relevance, filter_by_age, filter_by_source,
    filter_by_keywords, calculate_relevance, neutral_fill, orListStr, orQ,
    orInt, optStrFalsy, age_pass, source_blocked, source_dampen,
    source_not_preferred, itemY, critPreferred]

/-- C5 (amended): with an empty query and no topics, every item whose
relevance the earlier stages left unset (no preferred-source dampening, no
keyword boost, caller-unset scores) holds exactly the neutral 0.5 after the
relevance stage. -/
theorem c5_amended (now : Int) (model : Option (String → String → ℚ))
    (cfg : FilterConfig) (prefs : UserPreferences) (criteria : FilterCriteria)
    (items : List ContentItem)
    (hq : optStrFalsy criteria.query = true)
    (ht : prefs.topics_of_interest = [])
    (hp : orListStr criteria.preferred_sources cfg.preferred_sources = [])
    (hk : orListStr criteria.keywords cfg.keywords = [])
    (hr : ∀ i ∈ items, i.relevance_score = none) :
    ∀ x ∈ stages_through_relevance now model cfg prefs criteria items,
      x.relevance_score = some (1/2) := by
  intro x hx
  unfold stages_through_relevance at hx
  rw [hp, hk, filter_by_keywords_nil, filter_by_source_nil_pref] at hx
  rw [ht] at hx
  unfold calculate_relevance at hx
  rw [hq] at hx
  simp only [List.isEmpty_nil, Bool.and_true, if_true] at hx
  obtain ⟨y, hy, rfl⟩ := List.mem_map.mp hx
  have hyi : y ∈ items :=
    List.mem_of_mem_filter (List.mem_of_mem_filter hy)
  unfold neutral_fill
  rw [hr y hyi]

/-- C5 witness: the amended statement on a concrete untouched item. -/
theorem c5_witness :
    ((stages_through_relevance 0 none {} {} {} [itemBlank]).all
      (fun x => decide (x.relevance_score = some (1/2)))) = true := by
  have h := c5_amended 0 none {} {} {} [itemBlank] rfl rfl rfl rfl (by decide)
  exact List.all_eq_true.mpr (fun x hx => decide_eq_true (h x hx))

set_option maxRecDepth 40000 in
/-- C9: the lexical fallback does not use "the same item text as the
embedding path": the embedding path truncates content to 500 characters
while the fallback uses the full content.  For an item whose 501st-plus
characters contain the only query token, the fallback scores 1/3 while the
Jaccard over the embedding-path text is 0. -/
theorem c9_counterexample :
    (fallback_relevance "zebra" [itemZebra]).map (fun i => i.relevance_score) =
        [some (1/3)] ∧
    jaccard "zebra" (embed_text itemZebra) = 0 ∧ ((1:ℚ)/3 ≠ 0) := by
  have hful : jaccard "zebra" (itemZebra.title ++ " " ++ itemZebra.content) =
      1/3 := by
    have hI : (tokenSet "zebra" ∩
        tokenSet (itemZebra.title ++ " " ++ itemZebra.content)).card = 1 := by
      decide
    have hU : (tokenSet "zebra" ∪
        tokenSet (itemZebra.title ++ " " ++ itemZebra.content)).card = 3 := by
      decide
    simp only [jaccard, hI, hU]
    norm_num
  have htrunc : jaccard "zebra" (embed_text itemZebra) = 0 := by
    have hI2 : (tokenSet "zebra" ∩ tokenSet (embed_text itemZebra)).card = 0 := by
      decide
    have hU2 : (tokenSet "zebra" ∪ tokenSet (embed_text itemZebra)).card = 3 := by
      decide
    simp only [jaccard, hI2, hU2]
    norm_num
  refine ⟨?_, htrunc, by norm_num⟩
  simp only [fallback_relevance, List.map_cons, List.map_nil, hful]

/-- C9 (amended): when the embedding capability is unavailable or failing,
relevance scoring is total (no error escapes) and assigns every item the
Jaccard similarity between the reference text and `title + " " + content`
(the full content, unlike the embedding path's 500-character truncation). -/
theorem c9_amended (query : Option String) (topics : List String)
    (items : List ContentItem)
    (h : (optStrFalsy query && topics.isEmpty) = false) :
    calculate_relevance none query topics items =
      items.map (fun item =>
        let s := jaccard (reference_text_of query topics)
          (item.title ++ " " ++ item.content)
        { item with relevance_score := some s }) := by
  unfold calculate_relevance
  rw [if_neg]
  · rfl
  · simp [h]

/-- C9 witness: the amended equation at a concrete query and item. -/
theorem c9_witness :
    calculate_relevance none (some "q") [] [itemBlank] =
      [itemBlank].map (fun item =>
        let s := jaccard (reference_text_of (some "q") [])
          (item.title ++ " " ++ item.content)
        { item with relevance_score := some s }) :=
  c9_amended (some "q") [] [itemBlank] rfl

/-- C7: two items with identical urls are NOT always deduplicated: when the
shared url is `None` it is never registered in the seen set, so the second
item survives (here with the semantic model unavailable). -/
theorem c7_counterexample :
    itemA.url = itemB.url ∧
    remove_duplicates none [itemA, itemB] = [itemA, itemB] := by
  exact ⟨rfl, by decide⟩

/-- Loop invariant for `remove_duplicates`: if the accepted list is pairwise
distinct on non-empty urls and every accepted non-empty url is registered in
the seen set, the final output is pairwise distinct on non-empty urls. -/
theorem remove_duplicates_loop_invariant
    (sem : Option (ContentItem → List ContentItem → Bool)) :
    ∀ (rest : List ContentItem) (seenUrls : List String)
      (seenTitles : List (List Char)) (unique : List ContentItem),
      unique.Pairwise (fun a b => ∀ u : String, a.url = some u →
        u.data ≠ [] → b.url ≠ some u) →
      (∀ x ∈ unique, ∀ u : String, x.url = some u → u.data ≠ [] →
        seenUrls.contains u = true) →
      (remove_duplicates_loop sem seenUrls seenTitles unique rest).Pairwise
        (fun a b => ∀ u : String, a.url = some u → u.data ≠ [] →
          b.url ≠ some u) := by
  intro rest
  induction rest with
  | nil =>
    intro su st un hp _
    exact hp
  | cons item rest ih =>
    intro seenUrls seenTitles unique hp hreg
    unfold remove_duplicates_loop
    by_cases h1 : url_seen seenUrls item.url = true
    · rw [if_pos h1]
      exact ih _ _ _ hp hreg
    · rw [if_neg h1]
      by_cases h2 : seenTitles.contains (title_key item) = true
      · rw [if_pos h2]
        exact ih _ _ _ hp hreg
      · rw [if_neg h2]
        by_cases h3 : sem_check sem item unique = true
        · rw [if_pos h3]
          exact ih _ _ _ hp hreg
        · rw [if_neg h3]
          apply ih
          · rw [List.pairwise_append]
            refine ⟨hp, by simp, ?_⟩
            intro a ha b hb
            rw [List.mem_singleton] at hb
            subst hb
            intro u hau hu hbu
            apply h1
            rw [hbu]
            unfold url_seen
            exact hreg a ha u hau hu
          · intro x hx u hxu hu
            rw [List.mem_append, List.mem_singleton] at hx
            cases hx with
            | inl hxo =>
              have hc := hreg x hxo u hxu hu
              cases hiu : item.url with
              | none => simpa [hiu] using hc
              | some s =>
                have hm : u ∈ seenUrls := by simpa using hc
                by_cases hse : s.data.isEmpty
                · simpa [hiu, hse] using hc
                · simp only [hiu, hse, Bool.false_eq_true, if_false]
                  simp [List.contains_cons]
                  exact Or.inr hm
            | inr hxi =>
              subst hxi
              rw [hxu]
              have hse : u.data.isEmpty = false := by
                cases hd : u.data with
                | nil => exact absurd hd hu
                | cons c t => rfl
              simp [hse, List.contains_cons]

/-- C7 (amended): the output of `remove_duplicates` never contains two items
sharing the same non-empty url — whenever an item with a given truthy url is
accepted, every later item with that url is rejected; only items whose url is
absent or empty (never registered) escape url deduplication, as do items
whose earlier duplicate was itself rejected (its url was never registered). -/
theorem c7_amended (sem : Option (ContentItem → List ContentItem → Bool))
    (items : List ContentItem) :
    (remove_duplicates sem items).Pairwise
      (fun a b => ∀ u : String, a.url = some u → u.data ≠ [] →
        b.url ≠ some u) := by
  unfold remove_duplicates
  split
  · cases items with
    | nil => exact List.Pairwise.nil
    | cons a t =>
      cases t with
      | nil => simp
      | cons b t2 => simp_all
  · exact remove_duplicates_loop_invariant sem items [] [] []
      List.Pairwise.nil (by intro x hx; simp at hx)

/-- C2: filtering is not idempotent: with a preferred-source list set, the
0.7 dampening is applied again on the second run, dropping below threshold an
item the first run retained (relevance 0.35 → 0.245 < 0.3). -/
theorem c2_counterexample :
    (filter_items 0 none {} {} [itemY] critPreferred).total_filtered = 1 ∧
    (filter_items 0 none {} {}
        (filter_items 0 none {} {} [itemY] critPreferred).filtered_items
        critPreferred).total_filtered = 0 := by
  constructor <;>
    norm_num +decide [filter_items, stages_through_relevance, filter_by_age,
      filter_by_source, filter_by_keywords, filter_by_scores, calculate_quality,
      calculate_relevance, neutral_fill, orListStr, orQ, orInt, optStrFalsy,
      age_pass, source_blocked, source_dampen, source_not_preferred,
      calculate_quality_score, score_pass, sort_desc, insert_desc, sort_key,
      itemY, critPreferred, pyIsUpper, optStrTruthy, startsWithStr,
      inf_eq_min, min_def]

/-! ### Payload-preservation and congruence lemmas -/

theorem payload_source_dampen (p : List String) (i : ContentItem) :
    payload (source_dampen p i) = payload i := by
  unfold source_dampen
  split <;> rfl

theorem payload_keyword_boost (k : List String) (i : ContentItem) :
    payload (keyword_boost k i) = payload i := rfl

theorem payload_neutral_fill (i : ContentItem) :
    payload (neutral_fill i) = payload i := by
  unfold neutral_fill
  split <;> rfl

theorem payload_components {a b : ContentItem} (h : payload a = payload b) :
    a.title = b.title ∧ a.content = b.content ∧ a.source = b.source ∧
    a.url = b.url ∧ a.tags = b.tags ∧ a.author = b.author ∧
    a.published_date = b.published_date := by
  simpa [payload, Prod.ext_iff] using h

theorem age_pass_congr {a b : ContentItem} (n m : Int)
    (h : payload a = payload b) : age_pass n m a = age_pass n m b := by
  unfold age_pass
  rw [(payload_components h).2.2.2.2.2.2]

theorem source_blocked_congr {a b : ContentItem} (bl : List String)
    (h : payload a = payload b) :
    source_blocked bl a = source_blocked bl b := by
  unfold source_blocked
  rw [(payload_components h).2.2.1]

theorem keyword_match_count_congr {a b : ContentItem} (k : List String)
    (h : payload a = payload b) :
    keyword_match_count k a = keyword_match_count k b := by
  obtain ⟨h1, h2, -⟩ := payload_components h
  unfold keyword_match_count
  rw [h1, h2]

theorem calculate_quality_score_congr {a b : ContentItem}
    (h : payload a = payload b) :
    calculate_quality_score a = calculate_quality_score b := by
  obtain ⟨h1, h2, h3, h4, h5, h6, h7⟩ := payload_components h
  unfold calculate_quality_score
  rw [h1, h2, h4, h5, h6]

theorem rel_value_congr {a b : ContentItem}
    (model : Option (String → String → ℚ)) (ref : String)
    (h : payload a = payload b) :
    rel_value model ref a = rel_value model ref b := by
  obtain ⟨h1, h2, -⟩ := payload_components h
  unfold rel_value embed_text
  cases model with
  | some sim => rw [h1, h2]
  | none => rw [h1, h2]

/-! ### Stage shapes and membership lemmas -/

theorem calculate_relevance_neutral (model : Option (String → String → ℚ))
    {query : Option String} {topics : List String} (l : List ContentItem)
    (h : (optStrFalsy query && topics.isEmpty) = true) :
    calculate_relevance model query topics l = l.map neutral_fill := by
  unfold calculate_relevance
  rw [if_pos h]

theorem calculate_relevance_scored (model : Option (String → String → ℚ))
    {query : Option String} {topics : List String} (l : List ContentItem)
    (h : (optStrFalsy query && topics.isEmpty) = false) :
    calculate_relevance model query topics l =
      l.map (fun y => { y with relevance_score := some (rel_value model (reference_text_of query topics) y) }) := by
  unfold calculate_relevance
  rw [if_neg (by simp [h])]
  cases model with
  | some sim => rfl
  | none => rfl

theorem score_pass_elim {rt qt : ℚ} {x : ContentItem}
    (h : score_pass rt qt x = true) :
    rt ≤ orQ x.relevance_score 0 ∧ qt ≤ orQ x.quality_score 0 := by
  simpa [score_pass, Bool.and_eq_true, decide_eq_true_eq] using h

theorem orQ_some_quality (q : ℚ) (hq : (1:ℚ)/2 ≤ q) :
    orQ (some q) 0 = q := by
  have : q ≠ 0 := by
    intro h0
    rw [h0] at hq
    norm_num at hq
  simp [orQ, this]

theorem keyword_boost_rel (k : List String) (x : ContentItem) :
    (keyword_boost k x).relevance_score =
      some (orQ x.relevance_score (1/2) *
        (1 + (keyword_match_count k x : ℚ) * (1/10))) := rfl

theorem neutral_fill_of_some {z : ContentItem} {v : ℚ}
    (h : z.relevance_score = some v) : neutral_fill z = z := by
  unfold neutral_fill
  rw [h]

theorem boost_gate (rt r c : ℚ) (hrt : 0 ≤ rt)
    (hc : 0 ≤ c) (hpass : rt ≤ orQ (some r) 0) :
    rt ≤ orQ (some (orQ (some r) (1/2) * (1 + c * (1/10)))) 0 := by
  have hb : (1:ℚ) ≤ 1 + c * (1/10) := by linarith
  by_cases hr : r = 0
  · subst hr
    simp only [orQ] at hpass ⊢
    norm_num at hpass ⊢
    have hrt0 : rt = 0 := le_antisymm hpass hrt
    rw [hrt0]
    split_ifs with h2
    · exact le_refl 0
    · linarith
  · simp only [orQ, hr, if_false] at hpass ⊢
    have hr0 : 0 < r := lt_of_le_of_ne (le_trans hrt hpass) (Ne.symm hr)
    have hv : 0 < r * (1 + c * (1/10)) := by positivity
    rw [if_neg hv.ne']
    calc rt ≤ r := hpass
    _ ≤ r * (1 + c * (1/10)) := le_mul_of_one_le_right hr0.le hb

theorem filter_by_keywords_count_cases (k : List String)
    (l : List ContentItem) (hk : ¬k.isEmpty = true) :
    (∀ x ∈ filter_by_keywords k l, 0 < keyword_match_count k x) ∨
    (filter_by_keywords k l = l ∧ ∀ x ∈ l, keyword_match_count k x = 0) := by
  unfold filter_by_keywords
  rw [if_neg hk]
  by_cases hf : ((l.filter (fun i => decide (0 < keyword_match_count k i))).map
      (keyword_boost k)).isEmpty = true
  · right
    rw [if_pos hf]
    refine ⟨rfl, ?_⟩
    rw [List.isEmpty_iff, List.map_eq_nil_iff, List.filter_eq_nil_iff] at hf
    intro x hx
    have := hf x hx
    simpa using this
  · left
    rw [if_neg hf]
    intro x hx
    obtain ⟨y, hy, rfl⟩ := List.mem_map.mp hx
    have hyc := (List.mem_filter.mp hy).2
    rw [keyword_match_count_congr k (payload_keyword_boost k y)]
    simpa using hyc

theorem final_run_facts (now maxAge : Int)
    (blocked preferred kws : List String)
    (model : Option (String → String → ℚ)) (query : Option String)
    (topics : List String) (rt qt : ℚ) (items : List ContentItem)
    (x : ContentItem)
    (hx : x ∈ filter_by_scores rt qt (calculate_quality
      (calculate_relevance model query topics
        (filter_by_keywords kws
          (filter_by_source blocked preferred
            (filter_by_age now maxAge items)))))) :
    age_pass now maxAge x = true ∧
    source_blocked blocked x = false ∧
    x.quality_score = some (calculate_quality_score x) ∧
    score_pass rt qt x = true ∧
    (∃ y ∈ filter_by_keywords kws (filter_by_source blocked preferred
        (filter_by_age now maxAge items)), payload x = payload y) ∧
    ((optStrFalsy query && topics.isEmpty) = false →
      x.relevance_score =
        some (rel_value model (reference_text_of query topics) x)) ∧
    (∃ r : ℚ, x.relevance_score = some r) := by
  have hx6 := List.mem_filter.mp hx
  have hpass : score_pass rt qt x = true := hx6.2
  obtain ⟨z, hz, hxz⟩ := List.mem_map.mp hx6.1
  have hpxz : payload x = payload z := by
    rw [← hxz]
    rfl
  have hxq : x.quality_score = some (calculate_quality_score z) := by
    rw [← hxz]
  have hxq2 : x.quality_score = some (calculate_quality_score x) := by
    rw [hxq, calculate_quality_score_congr hpxz]
  have hxrel : x.relevance_score = z.relevance_score := by
    rw [← hxz]
  -- through the relevance stage
  have hz4 : ∃ w ∈ filter_by_keywords kws (filter_by_source blocked preferred
      (filter_by_age now maxAge items)), payload z = payload w ∧
      (((optStrFalsy query && topics.isEmpty) = false →
        z.relevance_score =
          some (rel_value model (reference_text_of query topics) w)) ∧
       (∃ r : ℚ, z.relevance_score = some r)) := by
    by_cases hcond : (optStrFalsy query && topics.isEmpty) = true
    · rw [calculate_relevance_neutral model _ hcond] at hz
      obtain ⟨w, hw, rfl⟩ := List.mem_map.mp hz
      refine ⟨w, hw, payload_neutral_fill w, ?_, ?_⟩
      · intro hfalse
        rw [hcond] at hfalse
        cases hfalse
      · unfold neutral_fill
        cases hwr : w.relevance_score with
        | none => exact ⟨1/2, rfl⟩
        | some r => exact ⟨r, by rw [hwr]⟩
    · rw [Bool.not_eq_true] at hcond
      rw [calculate_relevance_scored model _ hcond] at hz
      obtain ⟨w, hw, rfl⟩ := List.mem_map.mp hz
      exact ⟨w, hw, rfl, fun _ => rfl, ⟨_, rfl⟩⟩
  obtain ⟨w, hw, hpzw, hrelB, hrelsome⟩ := hz4
  have hpxw : payload x = payload w := hpxz.trans hpzw
  -- back through the keyword stage to the source stage
  have hw3 : ∃ v ∈ filter_by_source blocked preferred
      (filter_by_age now maxAge items), payload w = payload v := by
    unfold filter_by_keywords at hw
    by_cases hk : kws.isEmpty = true
    · rw [if_pos hk] at hw
      exact ⟨w, hw, rfl⟩
    · rw [if_neg hk] at hw
      by_cases hf : ((List.filter (fun i => decide (0 < keyword_match_count kws i))
          (filter_by_source blocked preferred (filter_by_age now maxAge items))).map
          (keyword_boost kws)).isEmpty = true
      · rw [if_pos hf] at hw
        exact ⟨w, hw, rfl⟩
      · rw [if_neg hf] at hw
        obtain ⟨v, hv, rfl⟩ := List.mem_map.mp hw
        exact ⟨v, List.mem_of_mem_filter hv, payload_keyword_boost kws v⟩
  obtain ⟨v, hv, hpwv⟩ := hw3
  -- back through the source stage to the age stage
  obtain ⟨u, hu, rfl⟩ := List.mem_map.mp hv
  have hub := (List.mem_filter.mp hu).2
  have hu1 := (List.mem_filter.mp hu).1
  have hua := (List.mem_filter.mp hu1).2
  have hpvu : payload (source_dampen preferred u) = payload u :=
    payload_source_dampen preferred u
  have hpxu : payload x = payload u := (hpxw.trans hpwv).trans hpvu
  refine ⟨?_, ?_, hxq2, hpass, ⟨w, hw, hpxw⟩, ?_, ?_⟩
  · rw [age_pass_congr now maxAge hpxu]
    exact hua
  · rw [source_blocked_congr blocked hpxu]
    simpa using hub
  · intro hfalse
    rw [hxrel, hrelB hfalse, rel_value_congr model _ hpxw.symm]
  · obtain ⟨r, hr⟩ := hrelsome
    exact ⟨r, by rw [hxrel, hr]⟩

theorem calculate_quality_mem_quality {l : List ContentItem}
    {w : ContentItem} (hw : w ∈ calculate_quality l) :
    w.quality_score = some (calculate_quality_score w) := by
  obtain ⟨v, hv, rfl⟩ := List.mem_map.mp hw
  have hp : payload { v with quality_score := some (calculate_quality_score v) } = payload v := rfl
  show some (calculate_quality_score v) = _
  rw [calculate_quality_score_congr hp]

theorem gate_transfer (rt qt : ℚ) (w x : ContentItem)
    (hpay : payload w = payload x)
    (hq : w.quality_score = some (calculate_quality_score w))
    (hx3 : x.quality_score = some (calculate_quality_score x))
    (hx4 : score_pass rt qt x = true)
    (hrel : rt ≤ orQ w.relevance_score 0) :
    score_pass rt qt w = true := by
  have hxq := (score_pass_elim hx4).2
  rw [hx3, orQ_some_quality _ (calculate_quality_score_bounds x).1] at hxq
  unfold score_pass
  rw [hq, orQ_some_quality _ (calculate_quality_score_bounds w).1]
  rw [calculate_quality_score_congr hpay]
  simp [hrel, hxq]

theorem pipeline_second_pass (now maxAge : Int) (blocked kws : List String)
    (model : Option (String → String → ℚ)) (query : Option String)
    (topics : List String) (rt qt : ℚ) (hrt : 0 ≤ rt)
    (items L : List ContentItem)
    (hL : ∀ x : ContentItem, x ∈ L ↔ x ∈ filter_by_scores rt qt
      (calculate_quality (calculate_relevance model query topics
        (filter_by_keywords kws (filter_by_source blocked []
          (filter_by_age now maxAge items)))))) :
    (filter_by_scores rt qt (calculate_quality
      (calculate_relevance model query topics
        (filter_by_keywords kws (filter_by_source blocked []
          (filter_by_age now maxAge L)))))).length = L.length := by
  by_cases hLnil : L = []
  · subst hLnil
    have h3 : filter_by_keywords kws ([] : List ContentItem) = [] := by
      unfold filter_by_keywords
      split <;> rfl
    have h4 : calculate_relevance model query topics ([] : List ContentItem) = [] := by
      unfold calculate_relevance
      split
      · rfl
      · cases model <;> rfl
    show (filter_by_scores rt qt (calculate_quality
      (calculate_relevance model query topics (filter_by_keywords kws
        (filter_by_source blocked [] (filter_by_age now maxAge [])))))).length = _
    rw [show filter_by_age now maxAge ([] : List ContentItem) = [] from rfl,
      show filter_by_source blocked [] ([] : List ContentItem) = [] from rfl,
      h3, h4]
    rfl
  · have facts := fun (x : ContentItem) (hx : x ∈ L) =>
      final_run_facts now maxAge blocked [] kws model query topics rt qt items
        x ((hL x).mp hx)
    have e_age : filter_by_age now maxAge L = L :=
      List.filter_eq_self.mpr (fun x hx => (facts x hx).1)
    have e_src : filter_by_source blocked [] L = L := by
      rw [filter_by_source_nil_pref]
      exact List.filter_eq_self.mpr (fun x hx => by simp [(facts x hx).2.1])
    rw [e_age, e_src]
    obtain ⟨M, hMeq, hMlen, hMmem⟩ :
        ∃ M : List ContentItem, filter_by_keywords kws L = M ∧
          M.length = L.length ∧
          ∀ z ∈ M, ∃ x, x ∈ L ∧ (z = x ∨ z = keyword_boost kws x) := by
      by_cases hk : kws.isEmpty = true
      · refine ⟨L, ?_, rfl, fun z hz => ⟨z, hz, Or.inl rfl⟩⟩
        unfold filter_by_keywords
        rw [if_pos hk]
      · rcases filter_by_keywords_count_cases kws (filter_by_source blocked []
            (filter_by_age now maxAge items)) hk with hpos | hzer
        · have hcnt : ∀ x ∈ L, 0 < keyword_match_count kws x := by
            intro x hx
            obtain ⟨y, hy, hpxy⟩ := (facts x hx).2.2.2.2.1
            rw [keyword_match_count_congr kws hpxy]
            exact hpos y hy
          have hfL : L.filter
              (fun i => decide (0 < keyword_match_count kws i)) = L :=
            List.filter_eq_self.mpr (fun x hx => by simpa using hcnt x hx)
          refine ⟨L.map (keyword_boost kws), ?_, by simp, ?_⟩
          · unfold filter_by_keywords
            rw [if_neg hk, hfL, if_neg (by simp [List.isEmpty_iff, hLnil])]
          · intro z hz
            obtain ⟨x, hx, rfl⟩ := List.mem_map.mp hz
            exact ⟨x, hx, Or.inr rfl⟩
        · have hcnt : ∀ x ∈ L, keyword_match_count kws x = 0 := by
            intro x hx
            obtain ⟨y, hy, hpxy⟩ := (facts x hx).2.2.2.2.1
            rw [keyword_match_count_congr kws hpxy]
            refine hzer.2 y ?_
            rw [← hzer.1]
            exact hy
          refine ⟨L, ?_, rfl, fun z hz => ⟨z, hz, Or.inl rfl⟩⟩
          unfold filter_by_keywords
          rw [if_neg hk]
          have hfnil : L.filter
              (fun i => decide (0 < keyword_match_count kws i)) = [] :=
            List.filter_eq_nil_iff.mpr (fun a ha => by simp [hcnt a ha])
          rw [hfnil]
          rfl
    rw [hMeq]
    by_cases hcond : (optStrFalsy query && topics.isEmpty) = true
    · rw [calculate_relevance_neutral model _ hcond]
      have hall : ∀ w ∈ calculate_quality (M.map neutral_fill),
          score_pass rt qt w = true := by
        intro w hw
        have hwq := calculate_quality_mem_quality hw
        obtain ⟨v, hv, rfl⟩ := List.mem_map.mp hw
        obtain ⟨z, hz, rfl⟩ := List.mem_map.mp hv
        obtain ⟨x, hxL, hzx⟩ := hMmem z hz
        have fx := facts x hxL
        obtain ⟨r, hr⟩ := fx.2.2.2.2.2.2
        have hpz : payload z = payload x := by
          rcases hzx with rfl | rfl
          · rfl
          · exact payload_keyword_boost kws x
        refine gate_transfer rt qt _ x
          (Eq.trans rfl ((payload_neutral_fill z).trans hpz)) hwq
          fx.2.2.1 fx.2.2.2.1 ?_
        show rt ≤ orQ (neutral_fill z).relevance_score 0
        rcases hzx with rfl | rfl
        · rw [neutral_fill_of_some hr, hr]
          have hgx := (score_pass_elim fx.2.2.2.1).1
          rw [hr] at hgx
          exact hgx
        · rw [neutral_fill_of_some (keyword_boost_rel kws x),
            keyword_boost_rel kws x, hr]
          refine boost_gate rt r _ hrt (by positivity) ?_
          have hgx := (score_pass_elim fx.2.2.2.1).1
          rw [hr] at hgx
          exact hgx
      unfold filter_by_scores
      rw [List.filter_eq_self.mpr hall]
      simp [calculate_quality, hMlen]
    · rw [Bool.not_eq_true] at hcond
      rw [calculate_relevance_scored model _ hcond]
      have hall : ∀ w ∈ calculate_quality (M.map (fun y => { y with relevance_score := some (rel_value model (reference_text_of query topics) y) })),
          score_pass rt qt w = true := by
        intro w hw
        have hwq := calculate_quality_mem_quality hw
        obtain ⟨v, hv, rfl⟩ := List.mem_map.mp hw
        obtain ⟨z, hz, rfl⟩ := List.mem_map.mp hv
        obtain ⟨x, hxL, hzx⟩ := hMmem z hz
        have fx := facts x hxL
        have hpz : payload z = payload x := by
          rcases hzx with rfl | rfl
          · rfl
          · exact payload_keyword_boost kws x
        refine gate_transfer rt qt _ x (Eq.trans rfl hpz) hwq
          fx.2.2.1 fx.2.2.2.1 ?_
        show rt ≤
          orQ (some (rel_value model (reference_text_of query topics) z)) 0
        rw [rel_value_congr model _ hpz]
        have hx6 := fx.2.2.2.2.2.1 hcond
        rw [← hx6]
        exact (score_pass_elim fx.2.2.2.1).1
      unfold filter_by_scores
      rw [List.filter_eq_self.mpr hall]
      simp [calculate_quality, hMlen]

/-- C2 (amended): when the resolved preferred-source list is empty (so no
dampening is re-applied) and the resolved relevance threshold is nonnegative
(always true for the validated config domain), re-running `filter_items` on
its own output with identical criteria retains every previously retained
item: the retained counts coincide.  With a nonempty preferred list the 0.7
dampening applies again and previously retained items can be dropped, as the
counterexample shows. -/
theorem c2_amended (now : Int) (model : Option (String → String → ℚ))
    (cfg : FilterConfig) (prefs : UserPreferences) (items : List ContentItem)
    (criteria : FilterCriteria)
    (hpref : orListStr criteria.preferred_sources cfg.preferred_sources = [])
    (hrt : 0 ≤ orQ criteria.relevance_threshold cfg.relevance_threshold) :
    (filter_items now model cfg prefs
        (filter_items now model cfg prefs items criteria).filtered_items
        criteria).total_filtered =
      (filter_items now model cfg prefs items criteria).total_filtered := by
  unfold filter_items stages_through_relevance
  rw [hpref]
  by_cases hne : items.isEmpty = true
  · rw [if_pos hne]
    simp
  · rw [if_neg hne]
    dsimp only
    generalize hF : filter_by_scores
        (orQ criteria.relevance_threshold cfg.relevance_threshold)
        (orQ criteria.quality_threshold cfg.quality_threshold)
        (calculate_quality (calculate_relevance model criteria.query
          prefs.topics_of_interest
          (filter_by_keywords (orListStr criteria.keywords cfg.keywords)
            (filter_by_source (orListStr criteria.blocked_sources cfg.blocked_sources) []
              (filter_by_age now (orInt criteria.max_age_days cfg.max_age_days)
                items))))) = F
    by_cases hfin : F = []
    · rw [hfin]
      simp [sort_desc]
    · have hsnil : sort_desc sort_key F ≠ [] := by
        intro hnil
        apply hfin
        have hlen := length_sort_desc sort_key F
        rw [hnil] at hlen
        exact List.eq_nil_of_length_eq_zero hlen.symm
      have hs : (sort_desc sort_key F).isEmpty = false := by
        cases hcase : (sort_desc sort_key F).isEmpty
        · rfl
        · exact absurd (List.isEmpty_iff.mp hcase) hsnil
      rw [hs]
      simp only [Bool.false_eq_true, if_false]
      rw [pipeline_second_pass now (orInt criteria.max_age_days cfg.max_age_days)
        (orListStr criteria.blocked_sources cfg.blocked_sources)
        (orListStr criteria.keywords cfg.keywords) model criteria.query
        prefs.topics_of_interest
        (orQ criteria.relevance_threshold cfg.relevance_threshold)
        (orQ criteria.quality_threshold cfg.quality_threshold) hrt items
        (sort_desc sort_key F)
        (fun x => by rw [hF]; exact mem_sort_desc)]
      exact length_sort_desc _ _

/-- C2 witness: the amended idempotence at a concrete (default) instance. -/
theorem c2_witness :
    (filter_items 0 none {} {}
        (filter_items 0 none {} {} [] {}).filtered_items {}).total_filtered =
      (filter_items 0 none {} {} [] {}).total_filtered :=
  c2_amended 0 none {} {} [] {} rfl (by norm_num [orQ])

end InfoFlow
